import Mathlib

/-!
# Verification of the KonText browser-side layer

A shallow embedding of the state containers and helpers of the KonText
client code (wordlist page polling, tag-builder widget, text-type selection
model, public-subcorpus list reducer, subcorpus mixer, subcorpus list async
task monitor), with theorems checking the natural-language specification
against it.

Conventions used throughout:
* JS `undefined` / `null` is `Option.none`.
* Decimal number strings (ratio values) are modelled as exact rationals,
  matching `parseFloat` on the decimal strings the code itself produces.
* A thrown `TypeError` (reading a property of `undefined`) is modelled
  explicitly (`Option.none` results, or a dedicated `crash` outcome that
  keeps the mutated state, since the stateful models mutate in place).
-/

set_option maxRecDepth 4096

/-- Generic assoc-list update modelling `Immutable.Map.set` / JS object
assignment: replaces the value under an existing key in place, otherwise
appends the binding (insertion order preserved). -/
def assocSet {α : Type} [DecidableEq α] {β : Type}
    (l : List (α × β)) (k : α) (v : β) : List (α × β) :=
  if l.any (fun p => decide (p.1 = k)) then
    l.map (fun p => if p.1 = k then (p.1, v) else p)
  else l ++ [(k, v)]

/-- Assoc-list read modelling `Immutable.Map.get` / JS property read:
the value under the key, `none` when absent (JS `undefined`). -/
def assocGet {α : Type} [DecidableEq α] {β : Type}
    (l : List (α × β)) (k : α) : Option β :=
  (l.find? (fun p => decide (p.1 = k))).map (fun p => p.2)

/-- JS `Math.round`: round half towards positive infinity. -/
def jsRound (x : ℚ) : ℤ := ⌊x + 1/2⌋

/-! ## Wordlist page: `lib.updateProcessBar` (wordlist progress polling)

From the wordlist page module: `lib.updateProcessBar` registers a
`jquery.periodic` job re-issuing a GET request to `wordlist_process`. -/

/-- The options object `{ period: 1000, decay: 1.2, max_period: 60000 }`
passed to `jqueryPeriodic` by `lib.updateProcessBar`. -/
structure PeriodicSchedule where
  period : ℚ
  decay : ℚ
  max_period : ℚ
deriving Repr, DecidableEq

/-- A server request re-issued on a timer: its schedule, target URL and
query data. -/
structure TimedRequest where
  schedule : PeriodicSchedule
  url : String
  data : String
deriving Repr, DecidableEq

/-- The schedule literal of `lib.updateProcessBar`. -/
def wordlistSchedule : PeriodicSchedule :=
  { period := 1000, decay := 12/10, max_period := 60000 }

namespace WordlistLib

/-- `lib.updateProcessBar(corpNameUrl, subcName, attrName)`: registers the
periodic job that re-issues a GET request to `wordlist_process` with the
given parameters (the completion handler updates `#processbar` and reloads
the page at 100%; that DOM part carries no model state). -/
def updateProcessBar (corpNameUrl subcName attrName : String) : TimedRequest :=
  { schedule := wordlistSchedule,
    url := "wordlist_process",
    data := corpNameUrl ++ "&amp;usesubcorp=" ++ subcName
      ++ "&amp;attrname=" ++ attrName }

end WordlistLib

/-- The repository's components that re-issue a server request on their own
timed schedule. `lib.updateProcessBar` of the wordlist page is the only
one; every other server interaction in the twelve source files is a single
request whose failure handling is a generic error message. -/
def programPeriodicPollers : List (String → String → String → TimedRequest) :=
  [WordlistLib.updateProcessBar]

/-- The period update rule of the `jquery.periodic` plugin (an external
dependency of the wordlist page): after each run the period is multiplied
by `decay` and capped at `max_period`. -/
def jqueryPeriodicNext (s : PeriodicSchedule) (p : ℚ) : ℚ :=
  min (p * s.decay) s.max_period

/-- The sequence of periods of a `jquery.periodic` job. -/
def periodSeq (s : PeriodicSchedule) : Nat → ℚ
  | 0 => s.period
  | n + 1 => jqueryPeriodicNext s (periodSeq s n)

theorem periodSeq_wordlist_bounds (n : Nat) :
    0 ≤ periodSeq wordlistSchedule n ∧ periodSeq wordlistSchedule n ≤ 60000 := by
  induction n with
  | zero =>
    constructor <;> norm_num [periodSeq, wordlistSchedule]
  | succ n ih =>
    constructor
    · simp only [periodSeq, jqueryPeriodicNext]
      refine le_min (mul_nonneg ih.1 ?_) (by norm_num [wordlistSchedule])
      norm_num [wordlistSchedule]
    · simp only [periodSeq, jqueryPeriodicNext]
      exact min_le_right _ _

/-! ## Tag-builder widget: `TagLoader` -/

/-- The response of `ajax_get_tag_variants` as seen by
`TagLoader.loadInitialVariants`: a successful JSON payload, a JSON payload
carrying an `error` property, or a transport error. The payload itself is
opaque to the caching logic and is modelled as a string. -/
inductive TagResponse where
  | ok (data : String)
  | withErrorField (msg : String)
  | httpError
deriving Repr, DecidableEq

/-- The fields of a `TagLoader` instance set by its constructor (the DOM
element handles `hiddenElm`, `multiSelectComponent`, `tagDisplay` carry no
model state and are omitted). -/
structure TagLoader where
  corpusName : String
  numTagPos : Nat
  lastPattern : String := ""
  /-- Initial values for all tag positions; the constructor sets `null`. -/
  initialValues : Option String := none
  selectedValues : List String := []
  history : List (List (String × List String)) := []
  activeBlockHistory : List String := []
deriving Repr, DecidableEq

/-- What `loadInitialVariants` does with its callbacks: invoke `callback`
with JSON data, or close the modal and invoke `errorCallback` (with the
server's error message, or with nothing on a transport error). -/
inductive LoadOutcome where
  | callbackWith (data : String)
  | errorCb (msg : Option String)
deriving Repr, DecidableEq

/-- Result of one `loadInitialVariants` invocation: the loader afterwards,
the URL of the AJAX request it issued (if any), and the callback outcome. -/
structure TagLoadResult where
  loader : TagLoader
  request : Option String
  outcome : LoadOutcome
deriving Repr, DecidableEq

namespace TagLoader

/-- Method `TagLoader.prototype.loadInitialVariants(callback, errorCallback)`:
when `initialValues` is `null` it issues a GET request to
`ajax_get_tag_variants?corpname=...`; a successful response without an
`error` property is stored in `initialValues` and passed to the callback.
When `initialValues` is already set, the callback receives the stored
value and no request is made. `server` is the response the server would
give if asked. -/
def loadInitialVariants (tl : TagLoader) (server : TagResponse) : TagLoadResult :=
  let url := "ajax_get_tag_variants?corpname=" ++ tl.corpusName
  match tl.initialValues with
  | none =>
    match server with
    | .ok d => ⟨{ tl with initialValues := some d }, some url, .callbackWith d⟩
    | .withErrorField m => ⟨tl, some url, .errorCb (some m)⟩
    | .httpError => ⟨tl, some url, .errorCb none⟩
  | some d => ⟨tl, none, .callbackWith d⟩

end TagLoader

/-- A fresh tag loader for corpus `c` with `n` tag positions, as built by
`lib.attachTagLoader` before `initSelectedValues` runs. -/
def newTagLoader (c : String) (n : Nat) : TagLoader :=
  { corpusName := c, numTagPos := n }

/-! ## Text-type selection model: `TextTypesModel`

The model state and its `onAction` dispatch from
`public/files/js/models/textTypes/main.ts`. The two attribute-selection
classes (`FullAttributeSelection`, `TextInputAttributeSelection`) live in
`./valueSelections`, which is not among the source files; their operations
are modelled from their use sites in `main.ts` (each such definition says
so). JS `undefined` is `none`; a `TypeError` thrown while the in-place
mutations of this `StatefulModel` are underway is the `crash` outcome,
which keeps the state mutated so far. -/

/-- One value of a text-type attribute (`TextTypes.AttributeValue`). -/
structure AttributeValue where
  ident : String
  value : String
  selected : Bool
  locked : Bool
  availItems : Option Nat := none
  numGrouped : Nat
  extendedInfo : Option (List (String × String)) := none
deriving Repr, DecidableEq

/-- An auto-complete hint item (`TextTypes.AutoCompleteItem`). -/
structure AutoCompleteItem where
  ident : String
  label : String
deriving Repr, DecidableEq

/-- One item of the `SelectionFilterMap` payload of
`TT_FILTER_WHOLE_SELECTION`. -/
structure SelectionFilterValue where
  ident : String
  v : String
  lock : Bool
  numGrouped : Nat
  availItems : Option Nat := none
deriving Repr, DecidableEq

/-- A text-type attribute selection box. `isTextInput` distinguishes
`TextInputAttributeSelection` from `FullAttributeSelection` (the two
classes of `./valueSelections`, not among the source files); the fields
are the ones their constructors receive in `importInitialData`. -/
structure AttrSelection where
  name : String
  label : String
  numeric : Bool := false
  isInterval : Bool := false
  attrDoc : String := ""
  attrDocLabel : String := ""
  isTextInput : Bool
  textFieldValue : String := ""
  values : List AttributeValue
  autoComplete : List AutoCompleteItem := []
deriving Repr, DecidableEq

namespace AttrSelection

/-- Modelled from the use sites in `main.ts` (class source not included):
`FullAttributeSelection.containsFullList()` is true, the text-input
variant's is false. -/
def containsFullList (a : AttrSelection) : Bool := !a.isTextInput

/-- Modelled from the use sites in `main.ts`: `mapValues` maps a function
over the value list. -/
def mapValues (f : AttributeValue → AttributeValue) (a : AttrSelection) : AttrSelection :=
  { a with values := a.values.map f }

/-- Modelled from the use sites in `main.ts`: a box has user changes when
some value is selected (for the text-input variant, also when the text
field is non-empty). -/
def hasUserChanges (a : AttrSelection) : Bool :=
  if a.isTextInput then a.textFieldValue != "" || a.values.any (fun v => v.selected)
  else a.values.any (fun v => v.selected)

/-- Modelled from the use sites in `main.ts`: a box is locked when some of
its values is locked. -/
def isLocked (a : AttrSelection) : Bool := a.values.any (fun v => v.locked)

/-- Modelled from the use sites in `main.ts`: toggling flips the selected
flag of the value at the index (the text-input variant drops the added
value instead). -/
def toggleValueSelection (a : AttrSelection) (itemIdx : Option Nat) : AttrSelection :=
  match itemIdx with
  | none => a
  | some i =>
    if a.isTextInput then
      { a with values :=
          a.values.enum.filterMap (fun iv => if iv.1 = i then none else some iv.2) }
    else
      { a with values :=
          a.values.enum.map (fun iv =>
            if iv.1 = i then { iv.2 with selected := !iv.2.selected } else iv.2) }

/-- Modelled from the use sites in `main.ts`: `setExtendedInfo(ident, data)`
stores the data on the value whose `ident` matches (strict equality with
the payload value). -/
def setExtInfo (a : AttrSelection) (ident : Option String)
    (d : Option (List (String × String))) : AttrSelection :=
  { a with values := a.values.map (fun v =>
      if some v.ident == ident then { v with extendedInfo := d } else v) }

/-- Modelled from the use sites in `main.ts`: `addValue` appends a value. -/
def addValue (a : AttrSelection) (v : AttributeValue) : AttrSelection :=
  { a with values := a.values ++ [v] }

/-- Modelled from the use sites in `main.ts`: `clearValues` empties the
value list. -/
def clearValues (a : AttrSelection) : AttrSelection := { a with values := [] }

/-- Modelled from the use sites in `main.ts`: `updateItems(items)` keeps
only the values whose `ident` occurs in `items`. -/
def updateItems (a : AttrSelection) (items : List String) : AttrSelection :=
  { a with values := a.values.filter (fun v => items.contains v.ident) }

/-- The `mapItems` call of `filterWholeSelection` rebuilds each value from
the filter-data entry at the same position (keeping the old `selected`,
`locked` and `extendedInfo`), turns positions beyond the filter data into
`null`, and the immediately following `filter(item => item !== null)`
drops those; the two steps are fused here. -/
def mapFilterByPos (a : AttrSelection) (fv : List SelectionFilterValue) : AttrSelection :=
  { a with values := a.values.enum.filterMap (fun iv =>
      (fv.get? iv.1).map (fun f =>
        { ident := f.ident, value := f.v, selected := iv.2.selected,
          locked := iv.2.locked, numGrouped := f.numGrouped,
          availItems := f.availItems, extendedInfo := iv.2.extendedInfo })) }

end AttrSelection

/-- Server-side data for one text-types box (`BlockLine`); `Values` pairs
a value with its optional `xcnt`. -/
structure BlockLine where
  Values : List (String × Option Nat) := []
  textboxlength : Option Nat := none
  attr_doc : String := ""
  attr_doc_label : String := ""
  is_interval : Nat := 0
  label : String
  name : String
  numeric : Bool := false
deriving Repr, DecidableEq

/-- Server-side data: a group of block lines. -/
structure Block where
  Line : List BlockLine
deriving Repr, DecidableEq

/-- Server-side `InitialData` for the text-types model. -/
structure InitialData where
  Blocks : List Block
  bib_attr : String := ""
  id_attr : String := ""
deriving Repr, DecidableEq

/-- Helper `typeIsSelected(data, attr, v)` of `main.ts`. -/
def typeIsSelected (data : List (String × List String)) (attr v : String) : Bool :=
  match assocGet data attr with
  | some l => l.contains v
  | none => false

/-- Function `importInitialData` of `main.ts`: merges the blocks and maps
every line to an attribute selection (text-input when `textboxlength` is
truthy, full list otherwise); returns `null` when there are no lines. -/
def importInitialData (data : InitialData)
    (selectedItems : List (String × List String)) : Option (List AttrSelection) :=
  let mergedBlocks := data.Blocks.foldl (fun prev curr => prev ++ curr.Line) []
  if mergedBlocks.length > 0 then
    some (mergedBlocks.map (fun attrItem =>
      if (attrItem.textboxlength.getD 0) != 0 then
        { name := attrItem.name, label := attrItem.label,
          numeric := attrItem.numeric, isInterval := attrItem.is_interval != 0,
          attrDoc := attrItem.attr_doc, attrDocLabel := attrItem.attr_doc_label,
          isTextInput := true, textFieldValue := "", values := [],
          autoComplete := [] }
      else
        { name := attrItem.name, label := attrItem.label,
          numeric := attrItem.numeric, isInterval := attrItem.is_interval != 0,
          attrDoc := attrItem.attr_doc, attrDocLabel := attrItem.attr_doc_label,
          isTextInput := false, textFieldValue := "",
          values := attrItem.Values.map (fun v =>
            { value := v.1, ident := v.1,
              selected := typeIsSelected selectedItems attrItem.name v.1,
              locked := false, availItems := v.2, numGrouped := 1 }),
          autoComplete := [] }))
  else none

/-- The `TextTypesModelState` record. `attributes` is an `Option` because
`TT_UNDO_STATE` can assign `selectionHistory.last()` of an empty list,
which is `undefined`; history entries are what `push(this.state.attributes)`
pushed. -/
structure TTState where
  attributes : Option (List AttrSelection)
  bibLabelAttr : String
  bibIdAttr : String
  selectionHistory : List (Option (List AttrSelection))
  selectAll : List (String × Bool)
  metaInfo : List (String × Option String)
  minimizedBoxes : List (String × Bool)
  textInputPlaceholder : Option String
  isBusy : Bool
  autoCompleteSupport : Bool
  hasSelectedItems : Bool
deriving Repr, DecidableEq

/-- The `TextTypesModel` constructor: imports the initial data and builds
the initial state (one-element selection history, all select-all flags and
minimized flags false). When `importInitialData` yields `null` the
constructor itself throws (it maps over the null list), hence `none`. -/
def initTTState (data : InitialData)
    (selectedItems : List (String × List String)) : Option TTState :=
  match importInitialData data selectedItems with
  | none => none
  | some attributes =>
    some { attributes := some attributes,
           bibLabelAttr := data.bib_attr,
           bibIdAttr := data.id_attr,
           selectionHistory := [some attributes],
           selectAll := attributes.map (fun item => (item.name, false)),
           metaInfo := [],
           textInputPlaceholder := none,
           isBusy := false,
           minimizedBoxes := attributes.map (fun v => (v.name, false)),
           autoCompleteSupport := false,
           hasSelectedItems := false }

/-- The payload fields read by the `onAction` branches (`action.payload[...]`
reads; absent fields are JS `undefined`). The differently-typed `data` and
`value` payloads of distinct actions get distinct fields here. -/
structure TTPayload where
  attrName : Option String := none
  itemIdx : Option Nat := none
  fromVal : Option Int := none
  toVal : Option Int := none
  strictInterval : Option Bool := none
  keepCurrent : Option Bool := none
  ident : Option String := none
  label : Option String := none
  append : Option Bool := none
  textValue : Option String := none
  extData : Option (List (String × String)) := none
  acData : Option (List AutoCompleteItem) := none
  filterData : Option (List (String × List SelectionFilterValue)) := none
  attrSummary : Option String := none
deriving Repr, DecidableEq

/-- An action dispatched to `TextTypesModel.onAction`. -/
structure TTAction where
  name : String
  payload : TTPayload := {}
deriving Repr, DecidableEq

/-- Externally observable side effects of one `onAction` dispatch:
`emitChange`, the `TT_SELECTION_CHANGED` dispatch of
`notifySelectionChange` (with its payload), the server request the
`applyRange` subscription fires, and the range-mode toggle forwarded to
the `RangeSelector` helper. -/
inductive TTEffect where
  | emitChange
  | selectionChanged (attributes : List AttrSelection) (hasSelectedItems : Bool)
  | rangeRequest (attrName : Option String) (fromVal toVal : Option Int)
      (strictInterval keepCurrent : Option Bool)
  | rangeModeToggled (attrName : Option String)
deriving Repr, DecidableEq

/-- Outcome of one dispatch: normal completion, or a thrown error
(`TypeError` on an `undefined` read, or an explicit `throw`); the model
mutates in place, so the crash keeps the state mutated so far and the
effects already emitted. -/
inductive TTOutcome where
  | ok (state : TTState) (effects : List TTEffect)
  | crash (state : TTState) (effects : List TTEffect)
deriving Repr, DecidableEq

/-- Pattern `getAttribute(name)` followed by `indexOf`: the first
attribute with the given name together with its index; `none` when the
name is `undefined` or not present. -/
def findAttrIdx (attrs : List AttrSelection) (name : Option String) :
    Option (Nat × AttrSelection) :=
  match attrs.findIdx? (fun a => some a.name == name) with
  | none => none
  | some idx => (attrs.get? idx).map (fun attr => (idx, attr))

/-- Pattern `getTextInputAttribute(name)`: as `findAttrIdx` but `undefined`
unless the attribute is a `TextInputAttributeSelection`. -/
def findTextInputAttr (attrs : List AttrSelection) (name : Option String) :
    Option (Nat × AttrSelection) :=
  match findAttrIdx attrs name with
  | some (idx, attr) => if attr.isTextInput then some (idx, attr) else none
  | none => none

/-- Append the `notifySelectionChange` dispatch: it reads
`this.getAttributes()` and `this.findHasSelectedItems()`, so it throws when
`attributes` is `undefined`. -/
def withNotify (s : TTState) (effs : List TTEffect) : TTOutcome :=
  match s.attributes with
  | some attrs =>
    .ok s (effs ++ [.selectionChanged attrs (attrs.any AttrSelection.hasUserChanges)])
  | none => .crash s effs

/-- Method `setExtendedInfo(attrName, ident, data)` of `main.ts`: throws on
a falsy `attrName` and on an attribute that cannot be found (the
`attr.setExtendedInfo` call on `undefined`); `none` is the throw. -/
def setExtendedInfoSt (s : TTState) (attrName ident : Option String)
    (d : Option (List (String × String))) : Option TTState :=
  match s.attributes with
  | none => none
  | some attrs =>
    if attrName.getD "" = "" then none
    else
      match findAttrIdx attrs attrName with
      | none => none
      | some (idx, attr) =>
        some { s with attributes := some (attrs.set idx (attr.setExtInfo ident d)) }

/-- Branch `TT_VALUE_CHECKBOX_CLICKED`: `changeValueSelection` (throws when
the attribute is not found), then `notifySelectionChange`. -/
def ttValueCheckboxClicked (s : TTState) (p : TTPayload) : TTOutcome :=
  match s.attributes with
  | none => .crash s []
  | some attrs =>
    match findAttrIdx attrs p.attrName with
    | none => .crash s []
    | some (idx, attr) =>
      let newAttrs := attrs.set idx (attr.toggleValueSelection p.itemIdx)
      let s2 := { s with
        attributes := some newAttrs,
        hasSelectedItems := newAttrs.any AttrSelection.hasUserChanges }
      withNotify s2 [.emitChange]

/-- Method `applySelectAll(ident)`: on a full-list attribute it negates the
select-all flag under the payload key, maps every value's `selected` to
the new flag (the mapped record carries no `extendedInfo`, so that field
becomes `undefined`), recomputes `hasSelectedItems` and emits; on a
text-input attribute nothing happens. Throws (via `containsFullList` on
`undefined`) when the attribute is not found. -/
def applySelectAll (s : TTState) (identOpt : Option String) : TTOutcome :=
  match s.attributes with
  | none => .crash s []
  | some attrs =>
    match findAttrIdx attrs identOpt with
    | none => .crash s []
    | some (idx, item) =>
      if item.containsFullList then
        let key := identOpt.getD ""
        let sa := assocSet s.selectAll key (!((assocGet s.selectAll key).getD false))
        let newVal := (assocGet sa key).getD false
        let newAttrs := attrs.set idx (item.mapValues (fun v =>
          { ident := v.ident, value := v.value, selected := newVal,
            locked := v.locked, numGrouped := v.numGrouped,
            availItems := v.availItems }))
        let s2 := { s with
          selectAll := sa, attributes := some newAttrs,
          hasSelectedItems := newAttrs.any AttrSelection.hasUserChanges }
        .ok s2 [.emitChange]
      else .ok s []

/-- Branch `TT_RANGE_BUTTON_CLICKED`: `applyRange` subscribes to the
`RangeSelector` observable, which fires the range-selection server
interaction (its response is handled asynchronously and mutates no state
here), then `notifySelectionChange`. `effs` carries effects already
emitted when this branch is reached by fall-through. -/
def ttRangeBranch (s : TTState) (effs : List TTEffect) (p : TTPayload) : TTOutcome :=
  withNotify s (effs ++
    [.rangeRequest p.attrName p.fromVal p.toVal p.strictInterval p.keepCurrent])

/-- Branch `TT_SELECT_ALL_CHECKBOX_CLICKED`: `applySelectAll`, then
`notifySelectionChange`; the case has no `break`, so control falls through
into the `TT_RANGE_BUTTON_CLICKED` branch. -/
def ttSelectAllBranch (s : TTState) (p : TTPayload) : TTOutcome :=
  match applySelectAll s p.attrName with
  | .crash s1 e1 => .crash s1 e1
  | .ok s1 e1 =>
    match s1.attributes with
    | none => .crash s1 e1
    | some attrs =>
      ttRangeBranch s1
        (e1 ++ [.selectionChanged attrs (attrs.any AttrSelection.hasUserChanges)]) p

/-- Branch `TT_EXTENDED_INFORMATION_REQUEST`: sets `isBusy`, then either
clears all extended info of the attribute (unique name), stores the
"multiple items" message (grouped name), or does nothing when the `ident`
is unknown. -/
def ttExtInfoRequestBranch (s : TTState) (p : TTPayload) : TTOutcome :=
  let s1 := { s with isBusy := true }
  match s1.attributes with
  | none => .crash s1 []
  | some attrs =>
    match findAttrIdx attrs p.attrName with
    | none => .crash s1 []
    | some (attrIdx, attr) =>
      match attr.values.find? (fun v => some v.ident == p.ident) with
      | some v =>
        if v.numGrouped < 2 then
          let newAttrs := attrs.set attrIdx (attr.mapValues (fun item =>
            { availItems := item.availItems, extendedInfo := none,
              ident := item.ident, locked := item.locked,
              numGrouped := item.numGrouped, selected := item.selected,
              value := item.value }))
          .ok { s1 with attributes := some newAttrs } [.emitChange]
        else
          match setExtendedInfoSt s1 (some attr.name) p.ident
              (some [("__message__", "query__tt_multiple_items_same_name_{num_items}")]) with
          | some s2 => .ok s2 [.emitChange]
          | none => .crash s1 []
      | none => .ok s1 []

/-- Branch `TT_EXTENDED_INFORMATION_REQUEST_DONE`: clears `isBusy` and
stores the payload data as extended info (an `undefined` payload becomes
an empty `OrderedMap`). -/
def ttExtInfoDoneBranch (s : TTState) (p : TTPayload) : TTOutcome :=
  let s1 := { s with isBusy := false }
  match setExtendedInfoSt s1 p.attrName p.ident (some (p.extData.getD [])) with
  | some s2 => .ok s2 [.emitChange]
  | none => .crash s1 []

/-- Branch `TT_EXTENDED_INFORMATION_REMOVE_REQUEST`: `clearExtendedInfo`
(throws when the attribute is not found), then emits. -/
def ttExtInfoRemoveBranch (s : TTState) (p : TTPayload) : TTOutcome :=
  match s.attributes with
  | none => .crash s []
  | some attrs =>
    match findAttrIdx attrs p.attrName with
    | none => .crash s []
    | some (idx, attr) =>
      .ok { s with attributes := some (attrs.set idx (attr.setExtInfo p.ident none)) }
        [.emitChange]

/-- Branch `TT_ATTRIBUTE_AUTO_COMPLETE_HINT_CLICKED`:
`setTextInputAttrValue` builds the new selected value and appends it
(after clearing, unless `append`); throws when the attribute is missing or
not a text-input one. Then emits and notifies. -/
def ttAutoCompleteHintBranch (s : TTState) (p : TTPayload) : TTOutcome :=
  match s.attributes with
  | none => .crash s []
  | some attrs =>
    match findTextInputAttr attrs p.attrName with
    | none => .crash s []
    | some (idx, attr) =>
      let newVal : AttributeValue :=
        { ident := p.ident.getD "", value := p.label.getD "",
          selected := true, locked := false, numGrouped := 1 }
      let updated := if p.append.getD false then attr.addValue newVal
                     else attr.clearValues.addValue newVal
      withNotify { s with attributes := some (attrs.set idx updated) } [.emitChange]

/-- Branch `TT_ATTRIBUTE_TEXT_INPUT_CHANGED`: updates the text field when
the text-input attribute exists (guarded by `if (attr)`), then emits. -/
def ttTextInputChangedBranch (s : TTState) (p : TTPayload) : TTOutcome :=
  match s.attributes with
  | none => .crash s []
  | some attrs =>
    match findTextInputAttr attrs p.attrName with
    | none => .ok s [.emitChange]
    | some (idx, attr) =>
      let newAttrs := attrs.set idx { attr with textFieldValue := p.textValue.getD "" }
      .ok { s with attributes := some newAttrs } [.emitChange]

/-- Branch `TT_ATTRIBUTE_AUTO_COMPLETE_RESET`: clears the auto-complete
hints when the text-input attribute exists, then emits. -/
def ttAutoCompleteResetBranch (s : TTState) (p : TTPayload) : TTOutcome :=
  match s.attributes with
  | none => .crash s []
  | some attrs =>
    match findTextInputAttr attrs p.attrName with
    | none => .ok s [.emitChange]
    | some (idx, attr) =>
      .ok { s with attributes := some (attrs.set idx { attr with autoComplete := [] }) }
        [.emitChange]

/-- Branch `TT_ATTRIBUTE_TEXT_INPUT_AUTOCOMPLETE_REQUEST_DONE`: clears
`isBusy` and stores the hint list when the text-input attribute exists. -/
def ttAutoCompleteDoneBranch (s : TTState) (p : TTPayload) : TTOutcome :=
  let s1 := { s with isBusy := false }
  match s1.attributes with
  | none => .crash s1 []
  | some attrs =>
    match findTextInputAttr attrs p.attrName with
    | none => .ok s1 [.emitChange]
    | some (idx, attr) =>
      let newAttrs := attrs.set idx { attr with autoComplete := p.acData.getD [] }
      .ok { s1 with attributes := some newAttrs } [.emitChange]

/-- Branch `TT_SNAPSHOT_STATE`: pushes the current attributes onto the
selection history and emits. -/
def ttSnapshotBranch (s : TTState) : TTOutcome :=
  .ok { s with selectionHistory := s.selectionHistory ++ [s.attributes] } [.emitChange]

/-- Value of `Immutable.List.last()` on the selection history: the last
pushed entry, or `undefined` on an empty list. -/
def optLast (h : List (Option (List AttrSelection))) : Option (List AttrSelection) :=
  match h.getLast? with
  | some v => v
  | none => none

/-- Branch `TT_UNDO_STATE`: pops the selection history (with no
`canUndoState` guard), assigns `selectionHistory.last()` to `attributes`,
emits, and notifies (the notification throws when the popped history was
left empty and `attributes` thus became `undefined`). -/
def ttUndoBranch (s : TTState) : TTOutcome :=
  let h := s.selectionHistory.dropLast
  withNotify { s with selectionHistory := h, attributes := optLast h } [.emitChange]

/-- Branch `TT_RESET_STATE`: method `reset` restores the first history
entry, truncates the history to it, clears the select-all flags, the meta
info and `hasSelectedItems`; then emits and notifies. -/
def ttResetBranch (s : TTState) : TTOutcome :=
  let s2 := { s with
    attributes := (match s.selectionHistory.head? with | some v => v | none => none),
    selectionHistory := s.selectionHistory.take 1,
    selectAll := s.selectAll.map (fun q => (q.1, false)),
    metaInfo := [],
    hasSelectedItems := false }
  withNotify s2 [.emitChange]

/-- Branch `TT_LOCK_SELECTED`: for every attribute with user changes that
is not yet locked, maps all its values to `locked`, then emits. -/
def ttLockSelectedBranch (s : TTState) : TTOutcome :=
  match s.attributes with
  | none => .crash s []
  | some attrs =>
    let names := (attrs.filter (fun a => a.hasUserChanges && !a.isLocked)).map
      (fun a => a.name)
    let newAttrs := names.foldl (fun acc n =>
      match findAttrIdx acc (some n) with
      | some (idx, attr) =>
        acc.set idx (attr.mapValues (fun item =>
          { ident := item.ident, value := item.value, selected := item.selected,
            locked := true, availItems := item.availItems,
            numGrouped := item.numGrouped, extendedInfo := item.extendedInfo }))
      | none => acc) attrs
    .ok { s with attributes := some newAttrs } [.emitChange]

/-- One key of `filterWholeSelection`: `updateItems`, then the positional
`mapItems` with the following non-null `filter` (see `mapFilterByPos`). -/
def applyFilterKey (attrs : List AttrSelection) (k : String)
    (fv : List SelectionFilterValue) : List AttrSelection :=
  let attrs1 :=
    match findAttrIdx attrs (some k) with
    | some (idx, attr) => attrs.set idx (attr.updateItems (fv.map (fun f => f.ident)))
    | none => attrs
  match findAttrIdx attrs1 (some k) with
  | some (idx, attr) => attrs1.set idx (attr.mapFilterByPos fv)
  | none => attrs1

/-- Branch `TT_FILTER_WHOLE_SELECTION`: applies the filter data key by key,
then emits (with no keys the loop body never runs). -/
def ttFilterWholeSelectionBranch (s : TTState) (p : TTPayload) : TTOutcome :=
  let fd := p.filterData.getD []
  match s.attributes with
  | none => if fd.isEmpty then .ok s [.emitChange] else .crash s []
  | some attrs =>
    let newAttrs := fd.foldl (fun acc kv => applyFilterKey acc kv.1 kv.2) attrs
    .ok { s with attributes := some newAttrs } [.emitChange]

/-- The action names handled by the `switch` of `TextTypesModel.onAction`. -/
def ttHandledActions : List String :=
  ["TT_VALUE_CHECKBOX_CLICKED", "TT_SELECT_ALL_CHECKBOX_CLICKED",
   "TT_RANGE_BUTTON_CLICKED", "TT_TOGGLE_RANGE_MODE",
   "TT_EXTENDED_INFORMATION_REQUEST", "TT_EXTENDED_INFORMATION_REQUEST_DONE",
   "TT_EXTENDED_INFORMATION_REMOVE_REQUEST",
   "TT_ATTRIBUTE_AUTO_COMPLETE_HINT_CLICKED", "TT_ATTRIBUTE_TEXT_INPUT_CHANGED",
   "TT_ATTRIBUTE_AUTO_COMPLETE_RESET",
   "TT_ATTRIBUTE_TEXT_INPUT_AUTOCOMPLETE_REQUEST",
   "TT_ATTRIBUTE_TEXT_INPUT_AUTOCOMPLETE_REQUEST_DONE",
   "TT_MINIMIZE_ALL", "TT_MAXIMIZE_ALL", "TT_TOGGLE_MINIMIZE_ITEM",
   "TT_SNAPSHOT_STATE", "TT_UNDO_STATE", "TT_RESET_STATE", "TT_LOCK_SELECTED",
   "TT_FILTER_WHOLE_SELECTION", "TT_SET_ATTR_SUMMARY"]

/-- Method `TextTypesModel.onAction`: the `switch` over the action name.
The `TT_SELECT_ALL_CHECKBOX_CLICKED` case has no `break` and falls through
into the `TT_RANGE_BUTTON_CLICKED` body; an unmatched name changes
nothing. -/
def ttOnAction (s : TTState) (a : TTAction) : TTOutcome :=
  if a.name = "TT_VALUE_CHECKBOX_CLICKED" then ttValueCheckboxClicked s a.payload
  else if a.name = "TT_SELECT_ALL_CHECKBOX_CLICKED" then ttSelectAllBranch s a.payload
  else if a.name = "TT_RANGE_BUTTON_CLICKED" then ttRangeBranch s [] a.payload
  else if a.name = "TT_TOGGLE_RANGE_MODE" then
    .ok s [.rangeModeToggled a.payload.attrName, .emitChange]
  else if a.name = "TT_EXTENDED_INFORMATION_REQUEST" then
    ttExtInfoRequestBranch s a.payload
  else if a.name = "TT_EXTENDED_INFORMATION_REQUEST_DONE" then
    ttExtInfoDoneBranch s a.payload
  else if a.name = "TT_EXTENDED_INFORMATION_REMOVE_REQUEST" then
    ttExtInfoRemoveBranch s a.payload
  else if a.name = "TT_ATTRIBUTE_AUTO_COMPLETE_HINT_CLICKED" then
    ttAutoCompleteHintBranch s a.payload
  else if a.name = "TT_ATTRIBUTE_TEXT_INPUT_CHANGED" then
    ttTextInputChangedBranch s a.payload
  else if a.name = "TT_ATTRIBUTE_AUTO_COMPLETE_RESET" then
    ttAutoCompleteResetBranch s a.payload
  else if a.name = "TT_ATTRIBUTE_TEXT_INPUT_AUTOCOMPLETE_REQUEST" then
    .ok { s with isBusy := true } [.emitChange]
  else if a.name = "TT_ATTRIBUTE_TEXT_INPUT_AUTOCOMPLETE_REQUEST_DONE" then
    ttAutoCompleteDoneBranch s a.payload
  else if a.name = "TT_MINIMIZE_ALL" then
    .ok { s with minimizedBoxes := s.minimizedBoxes.map (fun q => (q.1, true)) }
      [.emitChange]
  else if a.name = "TT_MAXIMIZE_ALL" then
    .ok { s with minimizedBoxes := s.minimizedBoxes.map (fun q => (q.1, false)) }
      [.emitChange]
  else if a.name = "TT_TOGGLE_MINIMIZE_ITEM" then
    let key := a.payload.ident.getD ""
    let newBoxes := assocSet s.minimizedBoxes key (!((assocGet s.minimizedBoxes key).getD false))
    .ok { s with minimizedBoxes := newBoxes } [.emitChange]
  else if a.name = "TT_SNAPSHOT_STATE" then ttSnapshotBranch s
  else if a.name = "TT_UNDO_STATE" then ttUndoBranch s
  else if a.name = "TT_RESET_STATE" then ttResetBranch s
  else if a.name = "TT_LOCK_SELECTED" then ttLockSelectedBranch s
  else if a.name = "TT_FILTER_WHOLE_SELECTION" then
    ttFilterWholeSelectionBranch s a.payload
  else if a.name = "TT_SET_ATTR_SUMMARY" then
    .ok { s with metaInfo := assocSet s.metaInfo (a.payload.attrName.getD "") a.payload.attrSummary }
      [.emitChange]
  else .ok s []

/-- Two consecutive dispatches (the second runs only when the first did
not throw). -/
def ttDispatch2 (s : TTState) (a1 a2 : TTAction) : TTOutcome :=
  match ttOnAction s a1 with
  | .ok s1 e1 =>
    match ttOnAction s1 a2 with
    | .ok s2 e2 => .ok s2 (e1 ++ e2)
    | .crash s2 e2 => .crash s2 (e1 ++ e2)
  | .crash s1 e1 => .crash s1 e1

/-! ## Public subcorpus list: `PublicSubcorpListModel.reduce` -/

/-- One published-subcorpus row (`DataItem`). -/
structure DataItem where
  ident : String
  origName : String
  corpname : String
  description : String
  userId : Int
deriving Repr, DecidableEq

/-- One corpus entry (`CorpusItem`). -/
structure CorpusItem where
  ident : String
  label : String
deriving Repr, DecidableEq

/-- The `list_published` response (`LoadDataResponse`). -/
structure LoadDataResponse where
  data : List DataItem
  corpora : List CorpusItem
deriving Repr, DecidableEq

/-- The `PublicSubcorpListState` record (`codePfx` stands for the
`codePrefix` field). The two string fields are `Option` because the
reducer assigns `action.props['value']`, which can be `undefined`. -/
structure PublicSubcorpListState where
  isBusy : Bool
  data : List DataItem
  corpora : List CorpusItem
  corpname : Option String
  codePfx : Option String
deriving Repr, DecidableEq

/-- The payload fields read by the reducer: `props['value']` and
`props['data']` (the latter carries the load response). -/
structure PubSubcAction where
  actionType : String
  value : Option String := none
  data : Option LoadDataResponse := none
deriving Repr, DecidableEq

namespace PublicSubcorpListModel

/-- The action types of the `Actions` enum. -/
def handledByReduce : List String :=
  ["PUBSUBC_SET_CORPUS_NAME", "PUBSUBC_SET_CODE_PREFIX", "PUBSUBC_DATA_LOAD_DONE"]

/-- Method `PublicSubcorpListModel.reduce`: copies the state and updates it
per action type; the `default` case returns the input state. Reading
`props['data']['data']` of a `DATA_LOAD_DONE` dispatch without a `data`
prop throws, hence `none` there. -/
def reduce (state : PublicSubcorpListState) (action : PubSubcAction) :
    Option PublicSubcorpListState :=
  if action.actionType = "PUBSUBC_SET_CORPUS_NAME" then
    some { state with isBusy := true, corpname := action.value }
  else if action.actionType = "PUBSUBC_SET_CODE_PREFIX" then
    some { state with isBusy := true, codePfx := action.value }
  else if action.actionType = "PUBSUBC_DATA_LOAD_DONE" then
    match action.data with
    | some resp => some { state with isBusy := false, data := resp.data }
    | none => none
  else some state

end PublicSubcorpListModel

/-! ## Subcorpus mixer: `SubcMixerModel` -/

/-- One row of `getAvailableValues` (`TextTypeAttrVal`). -/
structure TextTypeAttrVal where
  attrName : String
  attrValue : String
  isSelected : Bool
deriving Repr, DecidableEq

/-- A `Kontext.FormValue<string>` holding a ratio. The string is modelled
as the exact rational it denotes (`parseFloat` is exact on the decimal
strings `toFixed(1)` produces); `none` is the empty string. -/
structure KFormValue where
  value : Option ℚ
  isRequired : Bool := true
  isInvalid : Bool := false
deriving Repr, DecidableEq

/-- One share of the mixer (`SubcMixerExpression`, declared in the plugin's
`./common` module, which is not among the source files; the fields are the
ones `refreshData` and `submitTask` use). `baseRatio` is `none` for the
`'?'` placeholder. -/
structure SubcMixerExpression where
  attrName : String
  attrValue : String
  isSelected : Bool
  ratio : KFormValue
  baseRatio : Option ℚ := none
  zeroFixed : Bool := false
deriving Repr, DecidableEq

/-- The fields of `SubcMixerModelState` used by `refreshData` and
`submitTask` (the submission form fields and visibility flags play no role
in the claims and are omitted). -/
structure SubcMixerModelState where
  shares : List SubcMixerExpression
  ttAttributes : List AttrSelection
  ttInitialAvailableValues : List AttrSelection
  ratioLimit : ℚ
  alignedCorpora : List String
  isBusy : Bool
  numOfErrors : Nat
deriving Repr, DecidableEq

namespace SubcMixerModel

/-- Method `getTtAttribute(state, ident)`. -/
def getTtAttribute (state : SubcMixerModelState) (ident : String) :
    Option AttrSelection :=
  state.ttAttributes.find? (fun val => val.name == ident)

/-- Method `getAvailableValues`: for every attribute with user changes,
every initially available value of that attribute, marked selected when it
is among the currently selected values. -/
def getAvailableValues (state : SubcMixerModelState) : List TextTypeAttrVal :=
  (state.ttAttributes.filter (fun item => item.hasUserChanges)).flatMap (fun item =>
    let tmp := (((getTtAttribute state item.name).map (fun a => a.values)).getD []
        |>.filter (fun v => v.selected)).map (fun v => v.value)
    let initialVals :=
      match state.ttInitialAvailableValues.find? (fun q => q.name == item.name) with
      | some a => a.values
      | none => []
    initialVals.map (fun subItem =>
      { attrName := item.name, attrValue := subItem.value,
        isSelected := tmp.contains subItem.value }))

/-- Method `getTtAttrSize(state, attrName)`: the sum of `availItems` over
the attribute's values, `-1` when the attribute is missing. An absent
`xcnt` (which would poison the JS sum as `NaN`) does not occur in the data
considered and is read as `0`. -/
def getTtAttrSize (state : SubcMixerModelState) (attrName : String) : ℚ :=
  match state.ttAttributes.find? (fun item => item.name == attrName) with
  | some item =>
    item.values.foldl (fun prev curr => prev + ((curr.availItems.getD 0 : Nat) : ℚ)) 0
  | none => -1

/-- JS `toFixed(1)` read back as a number (identity on the multiples of
`0.1` this model produces). -/
def toFixed1 (q : ℚ) : ℚ := ((jsRound (q * 10) : ℤ) : ℚ) / 10

/-- Method `safeCalcInitialRatio(numItems, currIdx)`: rounds `100/numItems`
to one decimal and gives the last element the complement, "avoiding
splitting to problematic values like 1/3, 1/6 etc. by modifying the last
element" (its doc comment). -/
def safeCalcInitialRatio (numItems currIdx : Nat) : ℚ :=
  let r : ℚ := ((jsRound (100 / (numItems : ℚ) * 10) : ℤ) : ℚ) / 10
  if (currIdx : ℤ) < (numItems : ℤ) - 1 then r
  else 100 - ((numItems : ℚ) - 1) * r

/-- The per-attribute counter built by `refreshData` (`numValsPerGroup`):
folds the selected available values into a dict keyed by attribute name. -/
def numValsPerGroup (avs : List TextTypeAttrVal) : List (String × Nat) :=
  (avs.filter (fun item => item.isSelected)).foldl
    (fun prev curr =>
      match assocGet prev curr.attrName with
      | none => prev ++ [(curr.attrName, 1)]
      | some n => assocSet prev curr.attrName (n + 1))
    []

/-- Method `refreshData`: rebuilds `state.shares` from the selected
available values. `i` is the index in the list of all selected values of
all attributes, and it is what is passed to `safeCalcInitialRatio` as
`currIdx`, while `numItems` is the per-attribute count. -/
def refreshData (state : SubcMixerModelState) : SubcMixerModelState :=
  let availableValues := getAvailableValues state
  let nvg := numValsPerGroup availableValues
  let selected := availableValues.filter (fun item => item.isSelected)
  let shares : List SubcMixerExpression := selected.enum.map (fun iv =>
    let i := iv.1
    let item := iv.2
    let attrVal :=
      (((state.ttAttributes.find? (fun val => val.name == item.attrName)).map
          (fun a => a.values)).getD []).find?
        (fun item2 => item2.value == item.attrValue)
    let total := getTtAttrSize state item.attrName
    { attrName := item.attrName, attrValue := item.attrValue,
      isSelected := item.isSelected,
      ratio := { value := some (if item.isSelected then
                   toFixed1 (safeCalcInitialRatio ((assocGet nvg item.attrName).getD 0) i)
                 else 0),
                 isRequired := true },
      baseRatio := attrVal.map (fun av =>
        toFixed1 (((av.availItems.getD 0 : Nat) : ℚ) / total * 100)),
      zeroFixed := !item.isSelected })
  { state with shares := shares }

/-- The read `parseFloat(item.ratio.value || '0')` of `submitTask`. -/
def parseRatio (f : KFormValue) : ℚ := f.value.getD 0

/-- The keys of the `sums` dict of `submitTask`, in insertion order (the
JS `for (let k in sums)` order): attribute names by first occurrence. -/
def sharesAttrNames (shares : List SubcMixerExpression) : List String :=
  shares.foldl
    (fun acc it => if it.attrName ∈ acc then acc else acc ++ [it.attrName]) []

/-- The value `sums[k]` of `submitTask`: the sum of the parsed ratios of
the shares with that attribute name. -/
def attrRatioSum (shares : List SubcMixerExpression) (k : String) : ℚ :=
  (shares.filter (fun it => it.attrName == k)).foldl
    (fun prev it => prev + parseRatio it.ratio) 0

/-- The single POST request `submitTask` fires when validation passes:
target URL and the `args` it sends (`expression` maps each share to its
name, value and parsed ratio; a share with an empty ratio string parses to
`NaN`, serialized as `null`, hence the `Option`). -/
structure MixerRunCalcRequest where
  url : String
  corpname : String
  alignedCorpora : List String
  expression : List (String × String × Option ℚ)
deriving Repr, DecidableEq

/-- The request literal of `submitTask`. -/
def mixerRunCalcRequest (corpname : String) (state : SubcMixerModelState) :
    MixerRunCalcRequest :=
  { url := "subcorpus/subcmixer_run_calc",
    corpname := corpname,
    alignedCorpora := state.alignedCorpora,
    expression := state.shares.map (fun item =>
      (item.attrName, item.attrValue, item.ratio.value)) }

/-- Method `submitTask(state)`: accumulates the ratio sums per attribute
name; the first key (in insertion order) whose sum differs from `100`
yields a thrown error observable carrying the name and overflow, and no
request; otherwise exactly one POST to `subcorpus/subcmixer_run_calc` is
issued. The method only reads the state, which is returned untouched. -/
def submitTask (corpname : String) (state : SubcMixerModelState) :
    SubcMixerModelState × Except (String × ℚ) MixerRunCalcRequest :=
  (state,
    match (sharesAttrNames state.shares).find?
        (fun k => decide (attrRatioSum state.shares k ≠ 100)) with
    | some k => .error (k, attrRatioSum state.shares k - 100)
    | none => .ok (mixerRunCalcRequest corpname state))

end SubcMixerModel

/-! ## Subcorpus list: the `addOnAsyncTaskUpdate` handler of
`SubcorpListModel`

The callback registered in the `SubcorpListModel` constructor: it watches
the page-wide asynchronous task updates for server-side subcorpus tasks,
shows a one-time message per finished task and reloads the subcorpus list. -/

/-- One `Kontext.AsyncTaskInfo` entry of an async task update. -/
structure AsyncTaskInfo where
  ident : String
  label : String
  category : String
  status : String
deriving Repr, DecidableEq

/-- The `SubcListFilter` record. -/
structure SubcListFilter where
  show_archived : Bool
  corpname : String
deriving Repr, DecidableEq

/-- The `SortKey` record. -/
structure SortKey where
  name : String
  reverse : Bool
deriving Repr, DecidableEq

/-- The fields of `SubcorpListModelState` the async-task callback touches
(`finishedTasks`) or reads through `reloadItems` (`filter`, `sortKey`);
the list rows themselves are replaced only by the asynchronous response
and are omitted. -/
structure SubcorpListModelState where
  finishedTasks : List (String × Bool)
  filter : SubcListFilter
  sortKey : SortKey
deriving Repr, DecidableEq

/-- Effects of the async-task callback: a user message (level,
translation key, task label) or the GET request `reloadItems` fires
(via `filterItems`: URL, sort argument, filter arguments). -/
inductive SubcListEffect where
  | showMessage (level : String) (messageKey : String) (subc : String)
  | listRequest (url : String) (sort : String) (show_archived : Bool)
      (corpname : String)
deriving Repr, DecidableEq

/-- The request `reloadItems()` fires: `filterItems(this.state.filter)`
builds `subcorpus/list` args from the current sort key and filter. -/
def reloadRequest (s : SubcorpListModelState) : SubcListEffect :=
  .listRequest "subcorpus/list"
    ((if s.sortKey.reverse then "-" else "") ++ s.sortKey.name)
    s.filter.show_archived s.filter.corpname

/-- One iteration of the `List.forEach` over the subcorpus tasks: a task
not yet in `finishedTasks` produces its failure or completion message and
is recorded; an already recorded one is skipped. -/
def subcTaskStep (acc : SubcorpListModelState × List SubcListEffect)
    (task : AsyncTaskInfo) : SubcorpListModelState × List SubcListEffect :=
  let s := acc.1
  let msgs := acc.2
  if (assocGet s.finishedTasks task.ident).getD false then acc
  else
    ({ s with finishedTasks := assocSet s.finishedTasks task.ident true },
      msgs ++ [if task.status == "FAILURE" then
        .showMessage "error" "task__type_subcorpus_failed_{subc}" task.label
      else
        .showMessage "info" "task__type_subcorpus_done_{subc}" task.label])

/-- The callback passed to `layoutModel.addOnAsyncTaskUpdate` in the
`SubcorpListModel` constructor: filters the update down to subcorpus
tasks; when any are present it walks them (messages and `finishedTasks`
bookkeeping) and then calls `reloadItems()`, whose response is handled
asynchronously. -/
def handleAsyncTaskUpdate (model : SubcorpListModelState)
    (itemList : List AsyncTaskInfo) :
    SubcorpListModelState × List SubcListEffect :=
  let subcTasks := itemList.filter (fun item => item.category == "subcorpus")
  if subcTasks.isEmpty then (model, [])
  else
    let r := subcTasks.foldl subcTaskStep (model, [])
    (r.1, r.2 ++ [reloadRequest r.1])

/-- The subcorpus tasks of an update. -/
def subcTasksOf (itemList : List AsyncTaskInfo) : List AsyncTaskInfo :=
  itemList.filter (fun item => item.category == "subcorpus")

/-- Whether an effect is a list-reload request. -/
def isListRequest : SubcListEffect → Bool
  | .listRequest _ _ _ _ => true
  | _ => false

/-- Whether an effect is a user message. -/
def isShowMessage : SubcListEffect → Bool
  | .showMessage _ _ _ => true
  | _ => false

/-! ## Concrete fixtures used by the counterexample and witness theorems -/

/-- A full-list attribute value for the fixtures. -/
def mkVal (idn : String) (sel : Bool) (avail : Nat) : AttributeValue :=
  { ident := idn, value := idn, selected := sel, locked := false,
    availItems := some avail, numGrouped := 1 }

/-- Fixture: a full-list text-type attribute with two unselected values. -/
def ttAttrTxtype : AttrSelection :=
  { name := "doc.txtype", label := "Text type", isTextInput := false,
    values := [mkVal "fiction" false 10, mkVal "poetry" false 5] }

/-- Fixture state for the select-all dispatch. -/
def c3State : TTState :=
  { attributes := some [ttAttrTxtype],
    bibLabelAttr := "", bibIdAttr := "",
    selectionHistory := [some [ttAttrTxtype]],
    selectAll := [("doc.txtype", false)],
    metaInfo := [], minimizedBoxes := [("doc.txtype", false)],
    textInputPlaceholder := none, isBusy := false,
    autoCompleteSupport := false, hasSelectedItems := false }

/-- The select-all click action (its payload carries only the attribute
name; the range fields of the shared payload object are absent). -/
def c3Action : TTAction :=
  { name := "TT_SELECT_ALL_CHECKBOX_CLICKED",
    payload := { attrName := some "doc.txtype" } }

/-- Fixture initial data: one block with one full-list line. -/
def c5Line : BlockLine :=
  { label := "Publication year", name := "doc.pubyear",
    Values := [("1990", some 3)] }

/-- Fixture initial data wrapping the single line. -/
def c5Data : InitialData := { Blocks := [{ Line := [c5Line] }] }

/-- The snapshot action. -/
def ttSnapshotAction : TTAction := { name := "TT_SNAPSHOT_STATE" }

/-- The undo action. -/
def ttUndoAction : TTAction := { name := "TT_UNDO_STATE" }

/-- Fixture: the text-type attribute with its single value unselected. -/
def ttAttrFictionOff : AttrSelection :=
  { name := "doc.txtype", label := "Text type", isTextInput := false,
    values := [mkVal "fiction" false 10] }

/-- Fixture: the same attribute with the value selected. -/
def ttAttrFictionOn : AttrSelection :=
  { name := "doc.txtype", label := "Text type", isTextInput := false,
    values := [mkVal "fiction" true 10] }

/-- Fixture state whose current attributes differ from the last history
snapshot (a checkbox was toggled since the last snapshot). -/
def c6State : TTState :=
  { attributes := some [ttAttrFictionOn],
    bibLabelAttr := "", bibIdAttr := "",
    selectionHistory := [some [ttAttrFictionOff]],
    selectAll := [("doc.txtype", false)],
    metaInfo := [], minimizedBoxes := [("doc.txtype", false)],
    textInputPlaceholder := none, isBusy := false,
    autoCompleteSupport := false, hasSelectedItems := true }

/-- Fixture: an attribute with one selected value. -/
def mixAttrGroup : AttrSelection :=
  { name := "doc.group", label := "Group", isTextInput := false,
    values := [mkVal "g1" true 100] }

/-- Fixture: an attribute with three selected values. -/
def mixAttrTxtype : AttrSelection :=
  { name := "doc.txtype", label := "Text type", isTextInput := false,
    values := [mkVal "t1" true 50, mkVal "t2" true 30, mkVal "t3" true 20] }

/-- The unselected initial copies of the two attributes. -/
def mixAttrGroupInit : AttrSelection :=
  { mixAttrGroup with values := [mkVal "g1" false 100] }

/-- The unselected initial copy of the three-valued attribute. -/
def mixAttrTxtypeInit : AttrSelection :=
  { mixAttrTxtype with values := [mkVal "t1" false 50, mkVal "t2" false 30,
      mkVal "t3" false 20] }

/-- Fixture mixer state: a one-value attribute followed by a three-valued
one, all selected values. -/
def c4State : SubcMixerModelState :=
  { shares := [], ttAttributes := [mixAttrGroup, mixAttrTxtype],
    ttInitialAvailableValues := [mixAttrGroupInit, mixAttrTxtypeInit],
    ratioLimit := 1/100, alignedCorpora := [], isBusy := false,
    numOfErrors := 0 }

/-- A fixture share with a given parsed ratio. -/
def mkShare (an av : String) (r : ℚ) : SubcMixerExpression :=
  { attrName := an, attrValue := av, isSelected := true,
    ratio := { value := some r }, zeroFixed := false }

/-- Fixture mixer state whose per-attribute ratio sums are all 100. -/
def c7GoodState : SubcMixerModelState :=
  { shares := [mkShare "doc.group" "g1" 60, mkShare "doc.group" "g2" 40,
      mkShare "doc.txtype" "t1" 100],
    ttAttributes := [], ttInitialAvailableValues := [],
    ratioLimit := 1/100, alignedCorpora := ["intercorp_en"], isBusy := false,
    numOfErrors := 0 }

/-- Fixture mixer state where the second attribute sums to 99. -/
def c7BadState : SubcMixerModelState :=
  { c7GoodState with shares := [mkShare "doc.group" "g1" 60,
      mkShare "doc.group" "g2" 40, mkShare "doc.txtype" "t1" 99] }

/-- Fixture async subcorpus task. -/
def c9Task : AsyncTaskInfo :=
  { ident := "task-1", label := "my-subc", category := "subcorpus",
    status := "FAILURE" }

/-- Fixture subcorpus-list state with no finished tasks recorded. -/
def c9State0 : SubcorpListModelState :=
  { finishedTasks := [],
    filter := { show_archived := false, corpname := "" },
    sortKey := { name := "created", reverse := true } }

/-- Fixture public-subcorpus list state. -/
def c8PubState : PublicSubcorpListState :=
  { isBusy := false, data := [],
    corpora := [{ ident := "syn2020", label := "SYN2020" }],
    corpname := some "", codePfx := some "" }

/-! ## Claim theorems -/

/-- C1, counterexample: the claim says the program never re-issues a
server request on a timed schedule with a growing period and that no
component computes its own retry/polling timing. The wordlist page's
`updateProcessBar` is such a component: it schedules `wordlist_process`
polling with decay 1.2, so already the second period (1200 ms) exceeds the
first (1000 ms). -/
theorem timedReissue_exists :
    programPeriodicPollers ≠ [] ∧
    (WordlistLib.updateProcessBar "first_form?corpname=syn" "s1" "word").url
      = "wordlist_process" ∧
    (WordlistLib.updateProcessBar "first_form?corpname=syn" "s1" "word").schedule
      = wordlistSchedule ∧
    jqueryPeriodicNext wordlistSchedule 1000 = 1200 ∧ (1000 : ℚ) < 1200 := by
  refine ⟨by simp [programPeriodicPollers], rfl, rfl, ?_, by norm_num⟩
  norm_num [jqueryPeriodicNext, wordlistSchedule]

/-- C1 (amended): the wordlist progress updater is the program's only
component that re-issues a request on its own timed schedule; it polls
`wordlist_process` starting at 1000 ms with decay factor 1.2, and its
period sequence is non-decreasing (a growing backoff) and capped at
60000 ms. All other server interactions handle failure with a generic
error message only. -/
theorem wordlist_poller_unique_and_growing :
    programPeriodicPollers = [WordlistLib.updateProcessBar] ∧
    (∀ c s a, (WordlistLib.updateProcessBar c s a).url = "wordlist_process" ∧
      (WordlistLib.updateProcessBar c s a).schedule = wordlistSchedule) ∧
    periodSeq wordlistSchedule 0 = 1000 ∧
    periodSeq wordlistSchedule 1 = 1200 ∧
    (∀ n, periodSeq wordlistSchedule n ≤ periodSeq wordlistSchedule (n + 1) ∧
      periodSeq wordlistSchedule n ≤ 60000) := by
  refine ⟨rfl, fun c s a => ⟨rfl, rfl⟩, rfl, ?_,
    fun n => ⟨?_, (periodSeq_wordlist_bounds n).2⟩⟩
  · norm_num [periodSeq, jqueryPeriodicNext, wordlistSchedule]
  · have h := periodSeq_wordlist_bounds n
    simp only [periodSeq, jqueryPeriodicNext, wordlistSchedule] at h ⊢
    refine le_min ?_ h.2
    nlinarith [h.1]

/-- C2, counterexample: the claim says no component stores a previously
returned payload and serves it instead of re-fetching. `TagLoader` does:
the first `loadInitialVariants` call requests and stores the response, the
second call issues no request and invokes the callback with the stored
payload, even though the server would now answer differently. -/
theorem tagLoader_serves_cached_response :
    (TagLoader.loadInitialVariants (newTagLoader "syn2020" 16) (.ok "TAGS-A")).request
      = some "ajax_get_tag_variants?corpname=syn2020" ∧
    TagLoader.loadInitialVariants
        (TagLoader.loadInitialVariants (newTagLoader "syn2020" 16) (.ok "TAGS-A")).loader
        (.ok "TAGS-B")
      = ⟨(TagLoader.loadInitialVariants (newTagLoader "syn2020" 16) (.ok "TAGS-A")).loader,
          none, .callbackWith "TAGS-A"⟩ := by
  constructor <;> rfl

/-- C2 (amended): every data-loading operation issues a fresh request
except `TagLoader.loadInitialVariants`, which requests exactly when its
`initialValues` cache is empty, stores the first successful payload there,
and on later calls serves the stored payload without any request. -/
theorem loadInitialVariants_requests_iff_uncached (tl : TagLoader)
    (server : TagResponse) :
    ((TagLoader.loadInitialVariants tl server).request.isSome ↔
      tl.initialValues = none) ∧
    (∀ d, tl.initialValues = some d →
      TagLoader.loadInitialVariants tl server = ⟨tl, none, .callbackWith d⟩) ∧
    (∀ d, tl.initialValues = none → server = .ok d →
      TagLoader.loadInitialVariants tl server =
        ⟨{ tl with initialValues := some d },
          some ("ajax_get_tag_variants?corpname=" ++ tl.corpusName),
          .callbackWith d⟩) := by
  obtain ⟨c, n, lp, iv, sv, hs, abh⟩ := tl
  cases iv <;> cases server <;>
    simp [TagLoader.loadInitialVariants]

/-- C2 witness: the amended theorem applied to a loader whose cache holds
the first response. -/
theorem loadInitialVariants_requests_iff_uncached_witness :
    TagLoader.loadInitialVariants
        { corpusName := "syn2020", numTagPos := 16, initialValues := some "TAGS-A" }
        (.ok "TAGS-B")
      = ⟨{ corpusName := "syn2020", numTagPos := 16, initialValues := some "TAGS-A" },
          none, .callbackWith "TAGS-A"⟩ :=
  (loadInitialVariants_requests_iff_uncached _ _).2.1 "TAGS-A" rfl

/-- C3: evaluating the dispatch at the failing input. The
`TT_SELECT_ALL_CHECKBOX_CLICKED` case of `onAction` has no `break`, so
after flipping the select-all flag (which does happen, second conjunct)
control falls through into the `TT_RANGE_BUTTON_CLICKED` body and
`applyRange` fires a range-selection server request whose range arguments
are all `undefined` (a select-all payload carries only `attrName`),
contradicting the claimed frame property. -/
theorem selectAll_dispatch_falls_through_to_range :
    (match ttOnAction c3State c3Action with
      | .ok _ effs =>
        effs.contains (TTEffect.rangeRequest (some "doc.txtype") none none none none)
      | .crash _ _ => false) = true ∧
    (match ttOnAction c3State c3Action with
      | .ok s _ => decide (s.selectAll = [("doc.txtype", true)])
      | .crash _ _ => false) = true := by
  constructor <;> decide


/-! Arithmetic helper lemmas for evaluating the mixer's ratio formulas
(the kernel cannot reduce rational normalization, so the concrete values
are established through the floor characterization). -/

theorem jsRound_eq (x : ℚ) (z : ℤ) (h1 : (z : ℚ) ≤ x + 1/2) (h2 : x + 1/2 < z + 1) :
    jsRound x = z := by
  unfold jsRound
  rw [Int.floor_eq_iff]
  constructor
  · exact_mod_cast h1
  · exact_mod_cast h2

theorem safeCalc_1_0 : SubcMixerModel.safeCalcInitialRatio 1 0 = 100 := by
  unfold SubcMixerModel.safeCalcInitialRatio
  rw [jsRound_eq _ 1000 (by norm_num) (by norm_num)]
  norm_num

theorem safeCalc_3_1 : SubcMixerModel.safeCalcInitialRatio 3 1 = 333/10 := by
  unfold SubcMixerModel.safeCalcInitialRatio
  rw [jsRound_eq _ 333 (by norm_num) (by norm_num)]
  norm_num

theorem safeCalc_3_2 : SubcMixerModel.safeCalcInitialRatio 3 2 = 167/5 := by
  unfold SubcMixerModel.safeCalcInitialRatio
  rw [jsRound_eq _ 333 (by norm_num) (by norm_num)]
  norm_num

theorem safeCalc_3_3 : SubcMixerModel.safeCalcInitialRatio 3 3 = 167/5 := by
  unfold SubcMixerModel.safeCalcInitialRatio
  rw [jsRound_eq _ 333 (by norm_num) (by norm_num)]
  norm_num

theorem toFixed1_100 : SubcMixerModel.toFixed1 100 = 100 := by
  unfold SubcMixerModel.toFixed1
  rw [jsRound_eq _ 1000 (by norm_num) (by norm_num)]
  norm_num

theorem toFixed1_333 : SubcMixerModel.toFixed1 (333/10) = 333/10 := by
  unfold SubcMixerModel.toFixed1
  rw [jsRound_eq _ 333 (by norm_num) (by norm_num)]
  norm_num

theorem toFixed1_334 : SubcMixerModel.toFixed1 (167/5) = 167/5 := by
  unfold SubcMixerModel.toFixed1
  rw [jsRound_eq _ 334 (by norm_num) (by norm_num)]
  norm_num

theorem toFixed1_50 : SubcMixerModel.toFixed1 50 = 50 := by
  unfold SubcMixerModel.toFixed1
  rw [jsRound_eq _ 500 (by norm_num) (by norm_num)]
  norm_num

theorem toFixed1_30 : SubcMixerModel.toFixed1 30 = 30 := by
  unfold SubcMixerModel.toFixed1
  rw [jsRound_eq _ 300 (by norm_num) (by norm_num)]
  norm_num

theorem toFixed1_20 : SubcMixerModel.toFixed1 20 = 20 := by
  unfold SubcMixerModel.toFixed1
  rw [jsRound_eq _ 200 (by norm_num) (by norm_num)]
  norm_num


theorem c4_selected :
    (SubcMixerModel.getAvailableValues c4State).filter (fun item => item.isSelected)
      = [⟨"doc.group", "g1", true⟩, ⟨"doc.txtype", "t1", true⟩,
         ⟨"doc.txtype", "t2", true⟩, ⟨"doc.txtype", "t3", true⟩] := by decide

theorem c4_nvg_group :
    (assocGet (SubcMixerModel.numValsPerGroup (SubcMixerModel.getAvailableValues c4State))
      "doc.group").getD 0 = 1 := by decide

theorem c4_nvg_txtype :
    (assocGet (SubcMixerModel.numValsPerGroup (SubcMixerModel.getAvailableValues c4State))
      "doc.txtype").getD 0 = 3 := by decide


theorem c4_shares :
    (SubcMixerModel.refreshData c4State).shares.map
      (fun sh => (sh.attrName, sh.ratio.value, sh.zeroFixed))
      = [("doc.group", some 100, false), ("doc.txtype", some (333/10), false),
         ("doc.txtype", some (167/5), false), ("doc.txtype", some (167/5), false)] := by
  simp only [SubcMixerModel.refreshData, c4_selected]
  norm_num [List.enum, List.enumFrom, List.map, c4_nvg_group, c4_nvg_txtype,
    safeCalc_1_0, safeCalc_3_1, safeCalc_3_2, safeCalc_3_3,
    toFixed1_100, toFixed1_333, toFixed1_334]

theorem c4_sum :
    SubcMixerModel.attrRatioSum (SubcMixerModel.refreshData c4State).shares
      "doc.txtype" = 1001/10 := by
  simp only [SubcMixerModel.attrRatioSum, SubcMixerModel.parseRatio,
    SubcMixerModel.refreshData, c4_selected]
  norm_num [List.enum, List.enumFrom, List.map, List.filter, List.foldl,
    c4_nvg_group, c4_nvg_txtype,
    safeCalc_1_0, safeCalc_3_1, safeCalc_3_2, safeCalc_3_3,
    toFixed1_100, toFixed1_333, toFixed1_334]

theorem c4_sum_group :
    SubcMixerModel.attrRatioSum (SubcMixerModel.refreshData c4State).shares
      "doc.group" = 100 := by
  simp only [SubcMixerModel.attrRatioSum, SubcMixerModel.parseRatio,
    SubcMixerModel.refreshData, c4_selected]
  norm_num [List.enum, List.enumFrom, List.map, List.filter, List.foldl,
    c4_nvg_group, c4_nvg_txtype,
    safeCalc_1_0, safeCalc_3_1, safeCalc_3_2, safeCalc_3_3,
    toFixed1_100, toFixed1_333, toFixed1_334]

theorem c4_zerofixed :
    (SubcMixerModel.refreshData c4State).shares.all (fun sh => !sh.zeroFixed) = true := by
  simp only [SubcMixerModel.refreshData, c4_selected]
  norm_num [List.enum, List.enumFrom, List.map, List.all]


theorem c4_keys :
    SubcMixerModel.sharesAttrNames (SubcMixerModel.refreshData c4State).shares
      = ["doc.group", "doc.txtype"] := by decide

theorem c4_submit :
    (SubcMixerModel.submitTask "corp" (SubcMixerModel.refreshData c4State)).2
      = Except.error ("doc.txtype", 1/10) := by
  have h2 : (SubcMixerModel.submitTask "corp" (SubcMixerModel.refreshData c4State)).2
      = match (SubcMixerModel.sharesAttrNames (SubcMixerModel.refreshData c4State).shares).find?
          (fun k => decide (SubcMixerModel.attrRatioSum (SubcMixerModel.refreshData c4State).shares k ≠ 100)) with
        | some k => Except.error (k, SubcMixerModel.attrRatioSum (SubcMixerModel.refreshData c4State).shares k - 100)
        | none => Except.ok (SubcMixerModel.mixerRunCalcRequest "corp" (SubcMixerModel.refreshData c4State)) := rfl
  have hg : (decide (SubcMixerModel.attrRatioSum (SubcMixerModel.refreshData c4State).shares "doc.group" ≠ 100)) = false := by
    rw [c4_sum_group]; simp
  have ht : (decide (SubcMixerModel.attrRatioSum (SubcMixerModel.refreshData c4State).shares "doc.txtype" ≠ 100)) = true := by
    rw [c4_sum]; norm_num
  rw [h2, c4_keys]
  rw [List.find?, hg, List.find?, ht]
  norm_num [c4_sum]

/-- C4: evaluating `refreshData` at the failing input. With a one-valued
attribute followed by a three-valued one (all values selected),
`refreshData` passes the global index over all selected values to
`safeCalcInitialRatio` as `currIdx`, so every share of the second
attribute falls into the "last element" case: its ratios become 33.3,
33.4, 33.4 and sum to 100.1 instead of 100 (all shares are
non-zero-fixed), and the model's own `submitTask` validation rejects this
very initial assignment. -/
theorem refreshData_ratio_sum_exceeds_100 :
    SubcMixerModel.attrRatioSum (SubcMixerModel.refreshData c4State).shares
        "doc.txtype" = 1001/10 ∧
    (SubcMixerModel.refreshData c4State).shares.map
        (fun sh => (sh.attrName, sh.ratio.value, sh.zeroFixed))
      = [("doc.group", some 100, false), ("doc.txtype", some (333/10), false),
         ("doc.txtype", some (167/5), false), ("doc.txtype", some (167/5), false)] ∧
    (SubcMixerModel.refreshData c4State).shares.all (fun sh => !sh.zeroFixed)
      = true ∧
    (SubcMixerModel.submitTask "corp" (SubcMixerModel.refreshData c4State)).2
      = Except.error ("doc.txtype", 1/10) :=
  ⟨c4_sum, c4_shares, c4_zerofixed, c4_submit⟩

/-- C5: evaluating the model at the failing input. The constructor indeed
establishes a one-element selection history, but dispatching
`TT_UNDO_STATE` on that state pops the history to size 0 (violating the
documented invariant that at least one item is always present), leaves
`attributes` `undefined`, and the dispatch then throws inside
`notifySelectionChange`. -/
theorem undo_on_singleton_history_empties_it :
    (initTTState c5Data []).map (fun s0 =>
      (s0.selectionHistory.length,
        match ttOnAction s0 ttUndoAction with
        | .crash s1 effs =>
          some (s1.selectionHistory.length, s1.attributes.isNone, effs)
        | .ok _ _ => none))
      = some (1, some (0, true, [TTEffect.emitChange])) := by decide

/-- C6, counterexample: snapshot immediately followed by undo is not a
round-trip. On a state whose attributes were changed after the last
snapshot, the history is restored but `attributes` ends at the last old
snapshot, not at its pre-snapshot value. -/
theorem snapshot_undo_not_roundtrip :
    (match ttDispatch2 c6State ttSnapshotAction ttUndoAction with
      | .ok s2 _ => decide (s2.selectionHistory = c6State.selectionHistory)
          && decide (s2.attributes ≠ c6State.attributes)
      | .crash _ _ => false) = true := by decide

/-- C6 (amended): dispatching `TT_SNAPSHOT_STATE` immediately followed by
`TT_UNDO_STATE` always restores `selectionHistory` to its pre-snapshot
value, but sets `attributes` to the last element of the pre-snapshot
history (the round-trip restores `attributes` exactly when it already
equalled that last snapshot). -/
theorem snapshot_undo_behavior (s : TTState) (lastSnap : List AttrSelection)
    (hl : optLast s.selectionHistory = some lastSnap) :
    ttDispatch2 s ttSnapshotAction ttUndoAction =
      .ok { s with attributes := some lastSnap }
        [.emitChange, .emitChange,
          .selectionChanged lastSnap (lastSnap.any AttrSelection.hasUserChanges)] ∧
    ({ s with attributes := some lastSnap } = s ↔ s.attributes = some lastSnap) := by
  constructor
  · have h1 : ttOnAction s ttSnapshotAction =
        .ok { s with selectionHistory := s.selectionHistory ++ [s.attributes] }
          [.emitChange] := rfl
    have h2 : ttOnAction { s with selectionHistory := s.selectionHistory ++ [s.attributes] }
          ttUndoAction
        = ttUndoBranch { s with selectionHistory := s.selectionHistory ++ [s.attributes] } :=
      rfl
    unfold ttDispatch2
    rw [h1]
    simp only [h2]
    unfold ttUndoBranch
    simp only [List.dropLast_concat, hl, withNotify]
    rfl
  · constructor
    · intro h
      rw [← h]
    · intro h
      cases s
      simp_all

/-- C6 witness: the amended theorem applied to the fixture state. -/
theorem snapshot_undo_behavior_witness :
    ttDispatch2 c6State ttSnapshotAction ttUndoAction =
      .ok { c6State with attributes := some [ttAttrFictionOff] }
        [.emitChange, .emitChange, .selectionChanged [ttAttrFictionOff] false] :=
  (snapshot_undo_behavior c6State [ttAttrFictionOff] (by decide)).1

theorem mem_keysFold (k : String) (l : List SubcMixerExpression) :
    ∀ acc : List String,
      k ∈ l.foldl
          (fun acc it => if it.attrName ∈ acc then acc else acc ++ [it.attrName]) acc
        ↔ k ∈ acc ∨ k ∈ l.map SubcMixerExpression.attrName := by
  induction l with
  | nil => intro acc; simp
  | cons x xs ih =>
    intro acc
    simp only [List.foldl_cons, List.map_cons, List.mem_cons]
    rw [ih]
    by_cases hx : x.attrName ∈ acc
    · simp only [hx, if_true]
      constructor
      · intro h; tauto
      · rintro (h | h | h)
        · tauto
        · subst h; tauto
        · tauto
    · simp only [hx, if_false, List.mem_append, List.mem_singleton]
      tauto

theorem mem_sharesAttrNames (shares : List SubcMixerExpression) (k : String) :
    k ∈ SubcMixerModel.sharesAttrNames shares ↔
      k ∈ shares.map SubcMixerExpression.attrName := by
  unfold SubcMixerModel.sharesAttrNames
  rw [mem_keysFold]
  simp

/-- C7: `submitTask` returns a thrown-error observable and issues no
request exactly when some attribute's ratio values do not sum to 100
(ratio strings read as exact decimals, empty as 0); otherwise it issues
exactly the single POST to `subcorpus/subcmixer_run_calc`, and the
submission itself leaves the model state unchanged. -/
theorem submitTask_state_and_error_iff (corp : String) (s : SubcMixerModelState) :
    ((∃ e, (SubcMixerModel.submitTask corp s).2 = Except.error e) ↔
      ∃ k ∈ s.shares.map SubcMixerExpression.attrName,
        SubcMixerModel.attrRatioSum s.shares k ≠ 100) ∧
    (SubcMixerModel.submitTask corp s).1 = s ∧
    (∀ req, (SubcMixerModel.submitTask corp s).2 = Except.ok req →
      req = SubcMixerModel.mixerRunCalcRequest corp s) := by
  refine ⟨?_, rfl, ?_⟩
  · constructor
    · rintro ⟨e, he⟩
      rcases hf : (SubcMixerModel.sharesAttrNames s.shares).find?
          (fun k => decide (SubcMixerModel.attrRatioSum s.shares k ≠ 100)) with _ | k
      · exfalso
        unfold SubcMixerModel.submitTask at he
        rw [hf] at he
        simp at he
      · refine ⟨k, (mem_sharesAttrNames _ _).mp (List.mem_of_find?_eq_some hf), ?_⟩
        have hp := List.find?_some hf
        simpa using hp
    · rintro ⟨k, hk, hne⟩
      rcases hf : (SubcMixerModel.sharesAttrNames s.shares).find?
          (fun k => decide (SubcMixerModel.attrRatioSum s.shares k ≠ 100)) with _ | k2
      · exfalso
        have := List.find?_eq_none.mp hf k ((mem_sharesAttrNames _ _).mpr hk)
        simp at this
        exact hne this
      · refine ⟨(k2, SubcMixerModel.attrRatioSum s.shares k2 - 100), ?_⟩
        unfold SubcMixerModel.submitTask
        rw [hf]
  · intro req hreq
    rcases hf : (SubcMixerModel.sharesAttrNames s.shares).find?
        (fun k => decide (SubcMixerModel.attrRatioSum s.shares k ≠ 100)) with _ | k
    · unfold SubcMixerModel.submitTask at hreq
      rw [hf] at hreq
      simpa using hreq.symm
    · exfalso
      unfold SubcMixerModel.submitTask at hreq
      rw [hf] at hreq
      simp at hreq

/-- C7 witness: the bad fixture (second attribute sums to 99) is
rejected, the good fixture's state is untouched. -/
theorem submitTask_state_and_error_iff_witness :
    (∃ e, (SubcMixerModel.submitTask "syn2020" c7BadState).2 = Except.error e) ∧
    (SubcMixerModel.submitTask "syn2020" c7GoodState).1 = c7GoodState :=
  ⟨(submitTask_state_and_error_iff "syn2020" c7BadState).1.mpr
      ⟨"doc.txtype", by decide,
        by norm_num [SubcMixerModel.attrRatioSum, SubcMixerModel.parseRatio,
          c7BadState, c7GoodState, mkShare, List.filter, List.foldl]⟩,
    (submitTask_state_and_error_iff "syn2020" c7GoodState).2.1⟩

/-- C8: an action whose name a model does not handle leaves its state
unchanged: `PublicSubcorpListModel.reduce` returns the input state for any
action type other than its three handled ones (in particular also for the
declared-but-unhandled `PUBSUBC_RESET_FILTER`), and `TextTypesModel.onAction`
changes nothing and emits nothing for any name its switch does not match. -/
theorem unhandled_actions_leave_state_unchanged
    (ps : PublicSubcorpListState) (pa : PubSubcAction)
    (ts : TTState) (ta : TTAction)
    (h1 : pa.actionType ∉ PublicSubcorpListModel.handledByReduce)
    (h2 : ta.name ∉ ttHandledActions) :
    PublicSubcorpListModel.reduce ps pa = some ps ∧ ttOnAction ts ta = .ok ts [] := by
  simp only [PublicSubcorpListModel.handledByReduce, List.mem_cons,
    List.mem_singleton, List.not_mem_nil, or_false, not_or] at h1
  simp only [ttHandledActions, List.mem_cons, List.mem_singleton,
    List.not_mem_nil, or_false, not_or] at h2
  obtain ⟨q1, q2, q3⟩ := h1
  obtain ⟨n1, n2, n3, n4, n5, n6, n7, n8, n9, n10, n11, n12, n13, n14, n15,
    n16, n17, n18, n19, n20, n21⟩ := h2
  constructor
  · simp only [PublicSubcorpListModel.reduce, if_neg q1, if_neg q2, if_neg q3]
  · simp only [ttOnAction, if_neg n1, if_neg n2, if_neg n3, if_neg n4, if_neg n5,
      if_neg n6, if_neg n7, if_neg n8, if_neg n9, if_neg n10, if_neg n11,
      if_neg n12, if_neg n13, if_neg n14, if_neg n15, if_neg n16, if_neg n17,
      if_neg n18, if_neg n19, if_neg n20, if_neg n21]

/-- C8 witness: the theorem applied to `PUBSUBC_RESET_FILTER` and to a
foreign action name. -/
theorem unhandled_actions_leave_state_unchanged_witness :
    PublicSubcorpListModel.reduce c8PubState { actionType := "PUBSUBC_RESET_FILTER" }
      = some c8PubState ∧
    ttOnAction c3State { name := "TT_SELECTION_CHANGED" } = .ok c3State [] :=
  unhandled_actions_leave_state_unchanged c8PubState
    { actionType := "PUBSUBC_RESET_FILTER" } c3State
    { name := "TT_SELECTION_CHANGED" } (by decide) (by decide)

theorem map_upd_id {α : Type} [DecidableEq α] {β : Type}
    (k : α) (v : β) : ∀ xs : List (α × β),
    xs.any (fun p => decide (p.1 = k)) = false →
    xs.map (fun p => if p.1 = k then (p.1, v) else p) = xs := by
  intro xs
  induction xs with
  | nil => intro _; rfl
  | cons y ys ihy =>
    intro h
    simp only [List.any_cons, Bool.or_eq_false_iff, decide_eq_false_iff_not] at h
    rw [List.map_cons, if_neg h.1, ihy (by simp [h.2])]

theorem assocGet_assocSet_self {α : Type} [DecidableEq α] {β : Type}
    (l : List (α × β)) (k : α) (v : β) :
    assocGet (assocSet l k v) k = some v := by
  unfold assocSet assocGet
  by_cases hk : l.any (fun p => decide (p.1 = k)) = true
  · simp only [hk, if_true]
    induction l with
    | nil => simp at hk
    | cons x xs ih =>
      by_cases hx : x.1 = k
      · rw [List.map_cons, List.find?_cons_of_pos _ (by simp [hx])]
        simp [hx]
      · rw [List.map_cons, if_neg hx, List.find?_cons_of_neg _ (by simp [hx])]
        simp only [List.any_cons, decide_eq_true_eq, hx, false_or] at hk
        exact ih hk
  · rw [Bool.not_eq_true] at hk
    simp only [hk, Bool.false_eq_true, if_false]
    induction l with
    | nil => simp
    | cons x xs ih =>
      simp only [List.any_cons, Bool.or_eq_false_iff, decide_eq_false_iff_not] at hk
      rw [List.cons_append, List.find?_cons_of_neg _ (by simp [hk.1])]
      exact ih (by simp [hk.2])

theorem assocGet_assocSet_ne {α : Type} [DecidableEq α] {β : Type}
    (l : List (α × β)) (k k' : α) (v : β) (h : k' ≠ k) :
    assocGet (assocSet l k v) k' = assocGet l k' := by
  unfold assocSet assocGet
  by_cases hk : l.any (fun p => decide (p.1 = k)) = true
  · simp only [hk, if_true]
    induction l with
    | nil => simp
    | cons x xs ih =>
      by_cases hx : x.1 = k'
      · have hxk : ¬ x.1 = k := by rw [hx]; exact h
        rw [List.map_cons, if_neg hxk, List.find?_cons_of_pos _ (by simp [hx]),
          List.find?_cons_of_pos _ (by simp [hx])]
      · by_cases hxk : x.1 = k
        · rw [List.map_cons, if_pos hxk, List.find?_cons_of_neg _ (by simp [hx]),
            List.find?_cons_of_neg _ (by simp [hx])]
          by_cases hany : xs.any (fun p => decide (p.1 = k)) = true
          · exact ih hany
          · rw [Bool.not_eq_true] at hany
            rw [map_upd_id k v xs hany]
        · rw [List.map_cons, if_neg hxk, List.find?_cons_of_neg _ (by simp [hx]),
            List.find?_cons_of_neg _ (by simp [hx])]
          simp only [List.any_cons, decide_eq_true_eq, hxk, false_or] at hk
          exact ih hk
  · rw [Bool.not_eq_true] at hk
    simp only [hk, Bool.false_eq_true, if_false]
    induction l with
    | nil => simp [Ne.symm h]
    | cons x xs ih =>
      simp only [List.any_cons, Bool.or_eq_false_iff, decide_eq_false_iff_not] at hk
      by_cases hx : x.1 = k'
      · rw [List.cons_append, List.find?_cons_of_pos _ (by simp [hx]),
          List.find?_cons_of_pos _ (by simp [hx])]
      · rw [List.cons_append, List.find?_cons_of_neg _ (by simp [hx]),
          List.find?_cons_of_neg _ (by simp [hx])]
        exact ih (by simp [hk.2])

theorem subcTaskStep_finished (acc : SubcorpListModelState × List SubcListEffect)
    (t : AsyncTaskInfo) (tid : String) :
    (assocGet (subcTaskStep acc t).1.finishedTasks tid).getD false
      = ((assocGet acc.1.finishedTasks tid).getD false || decide (tid = t.ident)) := by
  unfold subcTaskStep
  by_cases hf : (assocGet acc.1.finishedTasks t.ident).getD false = true
  · simp only [hf, if_true]
    by_cases ht : tid = t.ident
    · subst ht; simp [hf]
    · simp [ht]
  · rw [Bool.not_eq_true] at hf
    simp only [hf, Bool.false_eq_true, if_false]
    by_cases ht : tid = t.ident
    · subst ht; simp [assocGet_assocSet_self]
    · simp [ht, assocGet_assocSet_ne _ _ _ _ ht]

theorem foldl_subcTaskStep_finished (l : List AsyncTaskInfo) :
    ∀ (acc : SubcorpListModelState × List SubcListEffect) (tid : String),
      (assocGet (l.foldl subcTaskStep acc).1.finishedTasks tid).getD false
        = ((assocGet acc.1.finishedTasks tid).getD false
            || decide (tid ∈ l.map AsyncTaskInfo.ident)) := by
  induction l with
  | nil => intro acc tid; simp
  | cons x xs ih =>
    intro acc tid
    simp only [List.foldl_cons, List.map_cons, List.mem_cons]
    rw [ih, subcTaskStep_finished]
    by_cases h1 : tid = x.ident <;> by_cases h2 : tid ∈ xs.map AsyncTaskInfo.ident <;>
      simp [h1, h2]

theorem foldl_subcTaskStep_requests (l : List AsyncTaskInfo) :
    ∀ acc, ((l.foldl subcTaskStep acc).2.filter isListRequest)
      = acc.2.filter isListRequest := by
  induction l with
  | nil => intro acc; rfl
  | cons x xs ih =>
    intro acc
    rw [List.foldl_cons, ih]
    unfold subcTaskStep
    by_cases hf : ((assocGet acc.1.finishedTasks x.ident).getD false) = true
    · simp [hf]
    · rw [Bool.not_eq_true] at hf
      simp only [hf, Bool.false_eq_true, if_false]
      rw [List.filter_append]
      cases hx : (x.status == "FAILURE") <;> simp [hx, isListRequest]

theorem foldl_subcTaskStep_noop (l : List AsyncTaskInfo) :
    ∀ acc, (∀ t ∈ l, (assocGet acc.1.finishedTasks t.ident).getD false = true) →
      l.foldl subcTaskStep acc = acc := by
  induction l with
  | nil => intro acc _; rfl
  | cons x xs ih =>
    intro acc h
    rw [List.foldl_cons]
    have hx : subcTaskStep acc x = acc := by
      unfold subcTaskStep
      simp [h x (by simp)]
    rw [hx]
    exact ih acc (fun t ht => h t (by simp [ht]))

/-- C9 (amended): every server interaction is an independent
request/response except `SubcorpListModel`'s async task monitor: an update
with no subcorpus tasks does nothing; an update with subcorpus tasks fires
exactly one list-reload request, records every delivered subcorpus task
ident in `finishedTasks`, and a repeated delivery of the same update shows
no message a second time. -/
theorem asyncTaskUpdate_behavior (s : SubcorpListModelState)
    (ts : List AsyncTaskInfo) :
    (subcTasksOf ts = [] → handleAsyncTaskUpdate s ts = (s, [])) ∧
    (subcTasksOf ts ≠ [] →
      ((handleAsyncTaskUpdate s ts).2.filter isListRequest)
        = [reloadRequest (handleAsyncTaskUpdate s ts).1] ∧
      (∀ t ∈ subcTasksOf ts,
        (assocGet (handleAsyncTaskUpdate s ts).1.finishedTasks t.ident).getD false
          = true) ∧
      ((handleAsyncTaskUpdate (handleAsyncTaskUpdate s ts).1 ts).2.filter
          isShowMessage) = []) := by
  have hdef : ∀ s0 : SubcorpListModelState, handleAsyncTaskUpdate s0 ts =
      (if (subcTasksOf ts).isEmpty then (s0, [])
       else (((subcTasksOf ts).foldl subcTaskStep (s0, [])).1,
         ((subcTasksOf ts).foldl subcTaskStep (s0, [])).2
           ++ [reloadRequest ((subcTasksOf ts).foldl subcTaskStep (s0, [])).1])) :=
    fun s0 => rfl
  constructor
  · intro h
    rw [hdef, h]
    rfl
  · intro h
    have hne : (subcTasksOf ts).isEmpty = false := by
      cases hts : subcTasksOf ts with
      | nil => exact absurd hts h
      | cons a l => rfl
    have hfin : ∀ t ∈ subcTasksOf ts,
        (assocGet (handleAsyncTaskUpdate s ts).1.finishedTasks t.ident).getD false
          = true := by
      intro t ht
      rw [hdef, if_neg (by simp [hne])]
      rw [foldl_subcTaskStep_finished]
      have : t.ident ∈ (subcTasksOf ts).map AsyncTaskInfo.ident :=
        List.mem_map_of_mem _ ht
      simp [this]
    refine ⟨?_, hfin, ?_⟩
    · conv_lhs => rw [hdef]
      conv_rhs => rw [hdef]
      rw [if_neg (by simp [hne])]
      simp only [List.filter_append, foldl_subcTaskStep_requests]
      simp [reloadRequest, isListRequest]
    · rw [hdef ((handleAsyncTaskUpdate s ts).1), if_neg (by simp [hne])]
      rw [foldl_subcTaskStep_noop (subcTasksOf ts)
        (((handleAsyncTaskUpdate s ts).1, []))
        (fun t ht => hfin t ht)]
      simp [reloadRequest, isShowMessage]

/-- C9, counterexample: the claim says every server interaction's response
is handled in isolation, with no coordination across in-flight operations.
The async task callback of `SubcorpListModel` is not isolation: its output
depends on the `finishedTasks` state accumulated from earlier updates (the
same update produces different effects the second time), and a task
completion triggers a further server request (the list reload). -/
theorem asyncTaskUpdate_not_isolated :
    (¬ ∀ (s1 s2 : SubcorpListModelState) (ts : List AsyncTaskInfo),
        (handleAsyncTaskUpdate s1 ts).2 = (handleAsyncTaskUpdate s2 ts).2) ∧
    ((handleAsyncTaskUpdate c9State0 [c9Task]).2.contains
        (reloadRequest c9State0)) = true := by
  constructor
  · intro hiso
    have := hiso c9State0 (handleAsyncTaskUpdate c9State0 [c9Task]).1 [c9Task]
    revert this
    decide
  · decide

/-- C9 witness: the amended theorem applied to the fixture update and to
the empty update. -/
theorem asyncTaskUpdate_behavior_witness :
    ((handleAsyncTaskUpdate c9State0 [c9Task]).2.filter isListRequest)
      = [reloadRequest (handleAsyncTaskUpdate c9State0 [c9Task]).1] ∧
    handleAsyncTaskUpdate c9State0 [] = (c9State0, []) :=
  ⟨((asyncTaskUpdate_behavior c9State0 [c9Task]).2 (by decide)).1,
    (asyncTaskUpdate_behavior c9State0 []).1 rfl⟩
